import Mathlib

/-!
Verification of the Noree-Fun-Tickets event-ticketing platform against its
natural-language specification.

The repository is a set of Flask microservices:
* a booking coordinator (`src/app.py` of the coordinator service) that
  orchestrates the booking -> payment-intent saga, proxies requests to the
  other services and enqueues asynchronous work;
* a payment service (`src/payment.py`) wrapping the Stripe processor and a
  DynamoDB `payments` table;
* an asynchronous worker (`src/worker.py`) that drains the SQS FIFO queue;
* a ticket-booking service whose implementation is not part of this source
  snapshot (only its integration tests and DynamoDB fixtures are); its
  reserve/cancel protocol is therefore modelled from the specification.

Machine integers do not occur (Python integers are unbounded), so seat
counts and ticket counts are embedded as `Int`, monetary amounts as `Rat`.
Stateful code is embedded as explicit state passing; fallible downstream
calls are parameters of the orchestrating functions.
-/

namespace BookingEngine

/-- Modelled from the spec: a Booking record as persisted by the
ticket-booking service (the service source is absent from the snapshot;
spec section 3 gives the schema). -/
structure BookingRec where
  booking_id : String
  user_id : String
  event_id : String
  num_tickets : Int
  seat_numbers : List String
deriving Repr, DecidableEq

/-- Modelled from the spec: the JSON value arriving in the optional
`seat_numbers` field of a reserve request.  It may be absent, a sequence,
or a scalar of the wrong type (spec section 4.1 requires a sequence). -/
inductive SeatsField where
  | missing
  | list (seats : List String)
  | scalar (raw : String)
deriving Repr, DecidableEq

/-- Modelled from the spec: the body of a reserve (book) request,
spec section 4.1. -/
structure ReserveReq where
  event_id : String
  user_id : Option String
  num_tickets : Int
  seat_numbers : SeatsField
deriving Repr, DecidableEq

/-- Modelled from the spec: the Inventory Store state visible to the
booking engine: Event seat counts keyed by `event_id` and Booking records
keyed by `booking_id` (spec sections 3 and 4.2). -/
structure StoreState where
  events : String → Option Int
  bookings : String → Option BookingRec

/-- Modelled from the spec: `user_id` is required and non-empty
(spec section 4.1). -/
def validUser : Option String → Bool
  | none => false
  | some u => !u.isEmpty

/-- Modelled from the spec: `seat_numbers`, when present, must be a
sequence, not a scalar (spec section 4.1). -/
def seatsFieldOk : SeatsField → Bool
  | .scalar _ => false
  | _ => true

/-- Modelled from the spec: the list of seat labels carried into the
persisted Booking (absent field becomes the empty sequence, as the
integration tests of the missing service expect). -/
def seatsList : SeatsField → List String
  | .list l => l
  | _ => []

/-- Modelled from the spec: the Inventory Store's atomic
`conditionalUpdate` specialised to the reserve decrement: decrement the
seat count of `key` by `k` if and only if the Event exists and its current
count is at least `k`; a single indivisible operation (spec sections 4.1
and 4.2).  Returns the updated event map and the post-decrement count, or
`none` on condition failure. -/
def conditionalDecrement (events : String → Option Int) (key : String) (k : Int) :
    Option ((String → Option Int) × Int) :=
  match events key with
  | none => none
  | some s =>
      if k ≤ s then
        some (fun x => if x = key then some (s - k) else events x, s - k)
      else none

/-- Modelled from the spec: the Inventory Store's atomic
`conditionalUpdate` specialised to the cancellation increment: add `k`
seats back to `key` provided the Event still exists (spec section 4.1,
cancel). -/
def conditionalIncrement (events : String → Option Int) (key : String) (k : Int) :
    Option ((String → Option Int) × Int) :=
  match events key with
  | none => none
  | some s =>
      some (fun x => if x = key then some (s + k) else events x, s + k)

/-- Modelled from the spec: outcome of a reserve request, tagged with the
data the HTTP layer reports (spec sections 4.1, 6 and 8). -/
inductive ReserveResult where
  | badRequest (msg : String)
  | notFound
  | conflict (requested : Int) (available : Int)
  | created (b : BookingRec) (remaining : Int)
deriving Repr, DecidableEq

/-- Modelled from the spec: HTTP status attached to each reserve outcome
(spec section 6). -/
def ReserveResult.statusCode : ReserveResult → Nat
  | .badRequest _ => 400
  | .notFound => 404
  | .conflict _ _ => 409
  | .created _ _ => 201

/-- Modelled from the spec: the Booking synthesised on a successful
reserve (spec sections 3 and 4.1). -/
def mkBooking (freshId : String) (req : ReserveReq) : BookingRec :=
  { booking_id := freshId
    user_id := req.user_id.getD ""
    event_id := req.event_id
    num_tickets := req.num_tickets
    seat_numbers := seatsList req.seat_numbers }

/-- Modelled from the spec: the reserve (book) operation of the
ticket-booking service, whose source is absent from the snapshot.
Validation runs before any store operation; then a single atomic
conditional decrement; on condition failure the Event is re-read to
disambiguate NotFound from Conflict; on success the Booking (with the
caller-supplied fresh id) is persisted as a second write
(spec section 4.1). -/
def reserve (st : StoreState) (req : ReserveReq) (freshId : String) :
    StoreState × ReserveResult :=
  if !validUser req.user_id then
    (st, .badRequest "user_id is required")
  else if req.num_tickets ≤ 0 then
    (st, .badRequest "num_tickets must be a positive integer")
  else if !seatsFieldOk req.seat_numbers then
    (st, .badRequest "seat_numbers must be a list")
  else
    match conditionalDecrement st.events req.event_id req.num_tickets with
    | some (events2, remaining) =>
        let b := mkBooking freshId req
        ({ events := events2
           bookings := fun x => if x = freshId then some b else st.bookings x },
         .created b remaining)
    | none =>
        match st.events req.event_id with
        | none => (st, .notFound)
        | some s => (st, .conflict req.num_tickets s)

/-- Modelled from the spec: outcome of a cancel request
(spec sections 4.1 and 6). -/
inductive CancelResult where
  | notFound (what : String)
  | cancelled (restored_seats : Int) (updated_total_seats : Int)
deriving Repr, DecidableEq

/-- Modelled from the spec: HTTP status attached to each cancel outcome
(spec section 6). -/
def CancelResult.statusCode : CancelResult → Nat
  | .notFound _ => 404
  | .cancelled _ _ => 200

/-- Modelled from the spec: the cancel operation of the ticket-booking
service, whose source is absent from the snapshot.  Look up the Booking;
if absent, NotFound.  Atomically increment the owning Event's seat count
by the booking's `num_tickets`, conditioned on the Event existing; only
after the increment succeeds delete the Booking.  If the Event vanished,
report NotFound for the associated event and keep the Booking
(spec section 4.1). -/
def cancel (st : StoreState) (bookingId : String) : StoreState × CancelResult :=
  match st.bookings bookingId with
  | none => (st, .notFound "booking")
  | some b =>
      match conditionalIncrement st.events b.event_id b.num_tickets with
      | none => (st, .notFound "associated event")
      | some (events2, newTotal) =>
          ({ events := events2
             bookings := fun x => if x = bookingId then none else st.bookings x },
           .cancelled b.num_tickets newTotal)

/-- Modelled from the spec: a concurrent batch of reserve requests.  Each
request's decrement is one indivisible store operation (spec section 5),
so any concurrent execution is observationally some sequential order of
the requests; `runReserves` executes one such order. -/
def runReserves (st : StoreState) :
    List (ReserveReq × String) → StoreState × List (ReserveReq × ReserveResult)
  | [] => (st, [])
  | (req, freshId) :: rest =>
      let p := reserve st req freshId
      let q := runReserves p.1 rest
      (q.1, (req, p.2) :: q.2)

/-- Tickets granted by one reserve outcome: the requested count on
success, zero otherwise. -/
def resCount (req : ReserveReq) : ReserveResult → Int
  | .created _ _ => req.num_tickets
  | _ => 0

/-- Total tickets granted across a batch of reserve outcomes. -/
def reservedSum : List (ReserveReq × ReserveResult) → Int
  | [] => 0
  | (req, res) :: rest => resCount req res + reservedSum rest

end BookingEngine

namespace BookingEngine

/-- Effect of one reserve request on the seat count of its target event:
the count drops by exactly the granted tickets, and a non-negative count
stays non-negative. -/
lemma reserve_step (st : StoreState) (req : ReserveReq) (freshId : String) (s : Int)
    (he : st.events req.event_id = some s) :
    (reserve st req freshId).1.events req.event_id
        = some (s - resCount req (reserve st req freshId).2)
      ∧ (0 ≤ s → 0 ≤ s - resCount req (reserve st req freshId).2) := by
  unfold reserve
  split
  · simpa [resCount] using he
  · split
    · simpa [resCount] using he
    · split
      · simpa [resCount] using he
      · simp only [conditionalDecrement, he]
        split
        · rename_i ev rem hk
          split at hk
          · rename_i hks
            simp only [Option.some.injEq, Prod.mk.injEq] at hk
            obtain ⟨hev, hrem⟩ := hk
            constructor
            · rw [← hev]; simp [resCount]
            · intro _; simp only [resCount]; omega
          · cases hk
        · rename_i hk
          simp only [he]
          refine ⟨by simp [resCount, he], fun h0 => by simpa [resCount] using h0⟩

/-- Seat accounting over a whole batch of reserve requests against one
event: the final count is the initial count minus the granted total, and
it never goes negative. -/
lemma runReserves_seats (e : String) :
    ∀ (reqs : List (ReserveReq × String)) (st : StoreState) (s : Int),
      st.events e = some s → (∀ p ∈ reqs, p.1.event_id = e) →
      (runReserves st reqs).1.events e
          = some (s - reservedSum (runReserves st reqs).2)
        ∧ (0 ≤ s → 0 ≤ s - reservedSum (runReserves st reqs).2)
  | [], st, s, he, _ => by
      simpa [runReserves, reservedSum] using he
  | (req, freshId) :: rest, st, s, he, hall => by
      have hev : req.event_id = e := hall (req, freshId) (List.mem_cons_self _ _)
      have he1 : st.events req.event_id = some s := by rw [hev]; exact he
      obtain ⟨h1, h2⟩ := reserve_step st req freshId s he1
      rw [hev] at h1
      obtain ⟨ih1, ih2⟩ := runReserves_seats e rest (reserve st req freshId).1
        (s - resCount req (reserve st req freshId).2) h1
        (fun p hp => hall p (List.mem_cons_of_mem _ hp))
      constructor
      · simp only [runReserves, reservedSum]
        rw [ih1]; congr 1; ring
      · intro h0
        have h3 := ih2 (h2 h0)
        simp only [runReserves, reservedSum]
        omega

end BookingEngine

open BookingEngine in
/-- C1: no overselling.  For an Event holding `n` seats, any concurrent
batch of reserve requests against it (each decrement being one atomic
conditional store operation, so any concurrent execution is some
sequential order of the requests) grants a subset of the requests whose
ticket counts sum to at most `n`, leaves the stored seat count equal to
`n` minus that sum, and never drives it negative. -/
theorem c1_no_overselling (st : StoreState) (e : String) (n : Int)
    (reqs : List (ReserveReq × String))
    (hn : 0 ≤ n) (he : st.events e = some n)
    (htgt : ∀ p ∈ reqs, p.1.event_id = e) :
    reservedSum (runReserves st reqs).2 ≤ n ∧
    (runReserves st reqs).1.events e
        = some (n - reservedSum (runReserves st reqs).2) ∧
    0 ≤ n - reservedSum (runReserves st reqs).2 := by
  obtain ⟨h1, h2⟩ := runReserves_seats e reqs st n he htgt
  exact ⟨by have := h2 hn; omega, h1, h2 hn⟩

namespace BookingEngine

/-- Two-seat event together with two competing two-ticket requests, the
scenario of spec section 8. -/
def demoState : StoreState :=
  { events := fun x => if x = "e1" then some 2 else none
    bookings := fun _ => none }

/-- Competing requests for `demoState`: both ask for two tickets. -/
def demoReqs : List (ReserveReq × String) :=
  [({ event_id := "e1", user_id := some "alice", num_tickets := 2,
      seat_numbers := .list ["A1", "A2"] }, "b1"),
   ({ event_id := "e1", user_id := some "bob", num_tickets := 2,
      seat_numbers := .missing }, "b2")]

end BookingEngine

open BookingEngine in
/-- Witness for C1: the two-seat scenario with two two-ticket requests. -/
theorem c1_no_overselling_witness :
    (0 : Int) ≤ 2 ∧ demoState.events "e1" = some 2 ∧
    (∀ p ∈ demoReqs, p.1.event_id = "e1") ∧
    (reservedSum (runReserves demoState demoReqs).2 ≤ 2 ∧
     (runReserves demoState demoReqs).1.events "e1"
        = some (2 - reservedSum (runReserves demoState demoReqs).2) ∧
     0 ≤ 2 - reservedSum (runReserves demoState demoReqs).2) :=
  ⟨by norm_num, rfl, by decide,
   c1_no_overselling demoState "e1" 2 demoReqs (by norm_num) rfl (by decide)⟩

namespace BookingEngine

/-- Full shape of a successful reserve: with valid inputs and enough
seats, the store gets the decremented count and the new Booking, and the
response carries that Booking with the post-decrement count. -/
lemma reserve_success (st : StoreState) (req : ReserveReq) (freshId : String) (s : Int)
    (hu : validUser req.user_id = true)
    (hsf : seatsFieldOk req.seat_numbers = true)
    (hk : 0 < req.num_tickets)
    (he : st.events req.event_id = some s)
    (hks : req.num_tickets ≤ s) :
    reserve st req freshId =
      ({ events := fun x =>
           if x = req.event_id then some (s - req.num_tickets) else st.events x
         bookings := fun x =>
           if x = freshId then some (mkBooking freshId req) else st.bookings x },
       .created (mkBooking freshId req) (s - req.num_tickets)) := by
  have h2 : ¬ req.num_tickets ≤ 0 := by omega
  simp [reserve, conditionalDecrement, hu, hsf, h2, he, hks]

end BookingEngine

open BookingEngine in
/-- C2: reserve success postcondition.  For an existing Event with at
least `num_tickets` seats and valid inputs, reserve answers HTTP 201 with
the newly created Booking (the fresh id, the given `user_id`,
`num_tickets` and `seat_numbers`) and `remaining_seats` equal to the
pre-operation count minus `num_tickets`, and the Booking is persisted. -/
theorem c2_reserve_success_postcondition (st : StoreState) (req : ReserveReq)
    (freshId : String) (s : Int)
    (hu : validUser req.user_id = true)
    (hsf : seatsFieldOk req.seat_numbers = true)
    (hk : 0 < req.num_tickets)
    (he : st.events req.event_id = some s)
    (hks : req.num_tickets ≤ s)
    (_hfresh : st.bookings freshId = none) :
    (reserve st req freshId).2
        = .created (mkBooking freshId req) (s - req.num_tickets) ∧
    ((reserve st req freshId).2).statusCode = 201 ∧
    (mkBooking freshId req).booking_id = freshId ∧
    (mkBooking freshId req).user_id = req.user_id.getD "" ∧
    (mkBooking freshId req).num_tickets = req.num_tickets ∧
    (mkBooking freshId req).seat_numbers = seatsList req.seat_numbers ∧
    (reserve st req freshId).1.bookings freshId = some (mkBooking freshId req) ∧
    (reserve st req freshId).1.events req.event_id = some (s - req.num_tickets) := by
  rw [reserve_success st req freshId s hu hsf hk he hks]
  exact ⟨rfl, rfl, rfl, rfl, rfl, rfl, by simp, by simp⟩

namespace BookingEngine

/-- One-ticket request used by the success and cancellation witnesses. -/
def reqCarol : ReserveReq :=
  { event_id := "e1", user_id := some "carol", num_tickets := 1,
    seat_numbers := .list ["A1"] }

end BookingEngine

open BookingEngine in
/-- Witness for C2: one ticket reserved on the two-seat demo event. -/
theorem c2_reserve_success_postcondition_witness :
    validUser reqCarol.user_id = true ∧ seatsFieldOk reqCarol.seat_numbers = true ∧
    (0 : Int) < reqCarol.num_tickets ∧ demoState.events reqCarol.event_id = some 2 ∧
    reqCarol.num_tickets ≤ (2 : Int) ∧ demoState.bookings "b9" = none ∧
    ((reserve demoState reqCarol "b9").2
        = .created (mkBooking "b9" reqCarol) (2 - reqCarol.num_tickets) ∧
     (reserve demoState reqCarol "b9").1.bookings "b9"
        = some (mkBooking "b9" reqCarol)) :=
  ⟨rfl, rfl, by norm_num [reqCarol], rfl, by norm_num [reqCarol], rfl,
   (c2_reserve_success_postcondition demoState reqCarol "b9" 2 rfl rfl
      (by norm_num [reqCarol]) rfl (by norm_num [reqCarol]) rfl).1,
   (c2_reserve_success_postcondition demoState reqCarol "b9" 2 rfl rfl
      (by norm_num [reqCarol]) rfl (by norm_num [reqCarol]) rfl).2.2.2.2.2.2.1⟩

open BookingEngine in
/-- C3: disambiguated reserve failures.  With valid inputs, reserving on a
nonexistent Event answers NotFound (HTTP 404), and reserving more tickets
than an existing Event has left answers Conflict (HTTP 409) reporting the
requested count and the pre-operation available count; neither changes the
store. -/
theorem c3_reserve_notfound_conflict (st : StoreState) (req : ReserveReq)
    (freshId : String)
    (hu : validUser req.user_id = true)
    (hsf : seatsFieldOk req.seat_numbers = true)
    (hk : 0 < req.num_tickets) :
    (st.events req.event_id = none →
        reserve st req freshId = (st, .notFound) ∧
        (ReserveResult.notFound).statusCode = 404) ∧
    (∀ s, st.events req.event_id = some s → s < req.num_tickets →
        reserve st req freshId = (st, .conflict req.num_tickets s) ∧
        (ReserveResult.conflict req.num_tickets s).statusCode = 409) := by
  have h2 : ¬ req.num_tickets ≤ 0 := by omega
  constructor
  · intro he
    refine ⟨?_, rfl⟩
    simp [reserve, conditionalDecrement, hu, hsf, h2, he]
  · intro s he hlt
    refine ⟨?_, rfl⟩
    have h3 : ¬ req.num_tickets ≤ s := by omega
    simp [reserve, conditionalDecrement, hu, hsf, h2, he, h3]

namespace BookingEngine

/-- Store with no events at all, used by the NotFound witness. -/
def noEventState : StoreState :=
  { events := fun _ => none, bookings := fun _ => none }

/-- Request against an event id that is absent from `noEventState`. -/
def reqGhost : ReserveReq :=
  { event_id := "ghost", user_id := some "dave", num_tickets := 1,
    seat_numbers := .missing }

/-- Request for three tickets on the two-seat demo event. -/
def reqBig : ReserveReq :=
  { event_id := "e1", user_id := some "erin", num_tickets := 3,
    seat_numbers := .missing }

end BookingEngine

open BookingEngine in
/-- Witness for C3: both failure branches at concrete inputs. -/
theorem c3_reserve_notfound_conflict_witness :
    (validUser reqGhost.user_id = true ∧ noEventState.events reqGhost.event_id = none ∧
      reserve noEventState reqGhost "b1" = (noEventState, .notFound)) ∧
    (validUser reqBig.user_id = true ∧ demoState.events reqBig.event_id = some 2 ∧
      (2 : Int) < reqBig.num_tickets ∧
      reserve demoState reqBig "b2" = (demoState, .conflict reqBig.num_tickets 2)) :=
  ⟨⟨rfl, rfl,
    ((c3_reserve_notfound_conflict noEventState reqGhost "b1" rfl rfl
        (by norm_num [reqGhost])).1 rfl).1⟩,
   ⟨rfl, rfl, by norm_num [reqBig],
    ((c3_reserve_notfound_conflict demoState reqBig "b2" rfl rfl
        (by norm_num [reqBig])).2 2 rfl (by norm_num [reqBig])).1⟩⟩

open BookingEngine in
/-- C4: validation precedes mutation.  A reserve request with
non-positive `num_tickets`, or a missing or empty `user_id`, or a
`seat_numbers` field that is not a sequence, answers a client error
(HTTP 400) and leaves the store untouched: no seat count changes and no
Booking is created. -/
theorem c4_validation_precedes_mutation (st : StoreState) (req : ReserveReq)
    (freshId : String)
    (h : validUser req.user_id = false ∨ req.num_tickets ≤ 0 ∨
         seatsFieldOk req.seat_numbers = false) :
    (reserve st req freshId).1 = st ∧
    ((reserve st req freshId).2).statusCode = 400 ∧
    (∀ e, (reserve st req freshId).1.events e = st.events e) ∧
    (∀ b, (reserve st req freshId).1.bookings b = st.bookings b) := by
  unfold reserve
  split
  · exact ⟨rfl, rfl, fun _ => rfl, fun _ => rfl⟩
  · split
    · exact ⟨rfl, rfl, fun _ => rfl, fun _ => rfl⟩
    · split
      · exact ⟨rfl, rfl, fun _ => rfl, fun _ => rfl⟩
      · exfalso
        rename_i hna hnb hnc
        rcases h with h | h | h
        · simp [h] at hna
        · exact hnb h
        · simp [h] at hnc

namespace BookingEngine

/-- Zero-ticket request used by the validation witness. -/
def reqZero : ReserveReq :=
  { event_id := "e1", user_id := some "frank", num_tickets := 0,
    seat_numbers := .missing }

end BookingEngine

open BookingEngine in
/-- Witness for C4: a zero-ticket request leaves the demo store alone. -/
theorem c4_validation_precedes_mutation_witness :
    (validUser reqZero.user_id = false ∨ reqZero.num_tickets ≤ 0 ∨
      seatsFieldOk reqZero.seat_numbers = false) ∧
    (reserve demoState reqZero "b1").1 = demoState ∧
    ((reserve demoState reqZero "b1").2).statusCode = 400 :=
  ⟨Or.inr (Or.inl (by norm_num [reqZero])),
   (c4_validation_precedes_mutation demoState reqZero "b1"
      (Or.inr (Or.inl (by norm_num [reqZero])))).1,
   (c4_validation_precedes_mutation demoState reqZero "b1"
      (Or.inr (Or.inl (by norm_num [reqZero])))).2.1⟩

open BookingEngine in
/-- C5: cancellation is the inverse of reservation.  After a successful
reserve of `num_tickets` tickets followed by a cancel of that booking, the
Event's seat count equals its pre-reserve value; the cancel response
reports `restored_seats` equal to the booked ticket count and
`updated_total_seats` equal to the post-reserve count plus that ticket
count, with HTTP 200, and the Booking record is deleted. -/
theorem c5_cancel_inverse (st : StoreState) (req : ReserveReq)
    (freshId : String) (s : Int)
    (hu : validUser req.user_id = true)
    (hsf : seatsFieldOk req.seat_numbers = true)
    (hk : 0 < req.num_tickets)
    (he : st.events req.event_id = some s)
    (hks : req.num_tickets ≤ s)
    (_hfresh : st.bookings freshId = none) :
    (reserve st req freshId).1.events req.event_id
        = some (s - req.num_tickets) ∧
    (cancel (reserve st req freshId).1 freshId).2
        = .cancelled req.num_tickets ((s - req.num_tickets) + req.num_tickets) ∧
    ((cancel (reserve st req freshId).1 freshId).2).statusCode = 200 ∧
    (cancel (reserve st req freshId).1 freshId).1.events req.event_id = some s ∧
    (cancel (reserve st req freshId).1 freshId).1.bookings freshId = none := by
  rw [reserve_success st req freshId s hu hsf hk he hks]
  refine ⟨by simp, ?_, ?_, ?_, ?_⟩
  · simp [cancel, conditionalIncrement, mkBooking]
  · simp [cancel, conditionalIncrement, mkBooking, CancelResult.statusCode]
  · simp [cancel, conditionalIncrement, mkBooking]
  · simp [cancel, conditionalIncrement, mkBooking]

open BookingEngine in
/-- Witness for C5: reserve one ticket on the demo event, then cancel. -/
theorem c5_cancel_inverse_witness :
    validUser reqCarol.user_id = true ∧ demoState.events reqCarol.event_id = some 2 ∧
    reqCarol.num_tickets ≤ (2 : Int) ∧ demoState.bookings "b7" = none ∧
    ((cancel (reserve demoState reqCarol "b7").1 "b7").2
        = .cancelled reqCarol.num_tickets ((2 - reqCarol.num_tickets) + reqCarol.num_tickets) ∧
     (cancel (reserve demoState reqCarol "b7").1 "b7").1.events reqCarol.event_id
        = some 2 ∧
     (cancel (reserve demoState reqCarol "b7").1 "b7").1.bookings "b7" = none) :=
  ⟨rfl, rfl, by norm_num [reqCarol], rfl,
   (c5_cancel_inverse demoState reqCarol "b7" 2 rfl rfl (by norm_num [reqCarol]) rfl
      (by norm_num [reqCarol]) rfl).2.1,
   (c5_cancel_inverse demoState reqCarol "b7" 2 rfl rfl (by norm_num [reqCarol]) rfl
      (by norm_num [reqCarol]) rfl).2.2.2.1,
   (c5_cancel_inverse demoState reqCarol "b7" 2 rfl rfl (by norm_num [reqCarol]) rfl
      (by norm_num [reqCarol]) rfl).2.2.2.2⟩

namespace Coordinator

/-- Parsed JSON object standing for a booking object in a downstream
response; the coordinator reads only its `booking_id` field
(`_process_booking` in the coordinator's `src/app.py`). -/
structure BookingJson where
  booking_id : Option String
deriving Repr, DecidableEq

/-- Response of the booking service as `_process_booking` consumes it:
HTTP status, raw text, the optional `booking` key of the JSON body, and
the body itself read as a booking (the `payload.get("booking") or
payload` fallback). -/
structure BookResp where
  status_code : Nat
  text : String
  bookingField : Option BookingJson
  topLevel : BookingJson
deriving Repr, DecidableEq

/-- Response of the payment service as `_process_booking` consumes it:
HTTP status, raw text, and the JSON fields the coordinator copies into
its own response (both snake_case and camelCase key variants). -/
structure PayResp where
  status_code : Nat
  text : String
  payment_id : Option String
  paymentId : Option String
  client_secret : Option String
  clientSecret : Option String
  amount : Option Rat
  currency : Option String
deriving Repr, DecidableEq

/-- Body of a synchronous orchestration request after the coordinator's
required-field check (`event_id`, `num_tickets`, `amount`, `currency`
present; `seats` optional). -/
structure OrchData where
  event_id : String
  num_tickets : Int
  amount : Rat
  currency : String
  seats : Option (List String)
deriving Repr, DecidableEq

/-- Outbound HTTP calls the coordinator can issue while processing a
booking.  `cancelBooking` is the compensating DELETE the booking service
exposes; it is in the vocabulary so that its absence from a trace is a
meaningful statement. -/
inductive OrchCall where
  | book (event_id : String) (num_tickets : Int) (user_id : Option String)
      (seats : Option (List String))
  | createIntent (booking_id : String) (amount : Rat) (currency : String)
  | cancelBooking (booking_id : String)
deriving Repr, DecidableEq

/-- Python truthiness of `data["seats"]`: the seats array is forwarded
only when present and non-empty (`if "seats" in data and data["seats"]`). -/
def seatsIncluded : Option (List String) → Option (List String)
  | some l => if l.isEmpty then none else some l
  | none => none

/-- Python truthiness of a string field (`if not booking_id` treats both
a missing key and an empty string as absent). -/
def truthyId : Option String → Option String
  | some s => if s.isEmpty then none else some s
  | none => none

/-- Python `a or b` on two optional string fields: `b` is used when `a`
is missing or empty. -/
def orTruthy (a b : Option String) : Option String :=
  match truthyId a with
  | some v => some v
  | none => b

/-- Result of `_process_booking`: HTTP status plus either a structured
error object `{code, message}` or the success payload. -/
inductive OrchResult where
  | err (status : Nat) (code : String) (message : String)
  | ok (status : Nat) (booking : BookingJson) (payment_id : Option String)
      (client_secret : Option String) (amount : Option Rat) (currency : Option String)
deriving Repr, DecidableEq

/-- Shallow embedding of `_process_booking` of the coordinator's
`src/app.py`: call the booking service; any status at or above 400 aborts
with BOOKING_FAILED carrying the downstream text; a missing or empty
`booking_id` aborts with 502 BOOKING_INVALID_RESPONSE; then call
create-intent; a status at or above 400 aborts with 400
PAYMENT_INTENT_FAILED carrying the downstream text; otherwise answer 201
with booking and payment.  The downstream responses are parameters and
the first component is the trace of outbound calls issued, in order. -/
def processBooking (data : OrchData) (userId : Option String)
    (bookRes : BookResp) (payRes : PayResp) : List OrchCall × OrchResult :=
  let bookCall := OrchCall.book data.event_id data.num_tickets userId
      (seatsIncluded data.seats)
  if 400 ≤ bookRes.status_code then
    ([bookCall], .err 400 "BOOKING_FAILED" bookRes.text)
  else
    let booking := bookRes.bookingField.getD bookRes.topLevel
    match truthyId booking.booking_id with
    | none => ([bookCall], .err 502 "BOOKING_INVALID_RESPONSE" "No booking_id returned")
    | some bid =>
        let payCall := OrchCall.createIntent bid data.amount data.currency
        if 400 ≤ payRes.status_code then
          ([bookCall, payCall], .err 400 "PAYMENT_INTENT_FAILED" payRes.text)
        else
          ([bookCall, payCall],
           .ok 201 booking (orTruthy payRes.payment_id payRes.paymentId)
             (orTruthy payRes.client_secret payRes.clientSecret)
             payRes.amount payRes.currency)

/-- Whether an outbound call can mutate the booking service's Events or
Bookings tables.  The payment service's create-intent writes only the
separate `payments` table (`src/payment.py`), so it cannot undo the seat
decrement or the Booking persisted in step 1. -/
def touchesBookingStore : OrchCall → Bool
  | .book _ _ _ _ => true
  | .cancelBooking _ => true
  | .createIntent _ _ _ => false

end Coordinator

open Coordinator in
/-- C6: saga non-rollback.  When the booking step succeeds (downstream
status below 400 with a truthy `booking_id`) and payment-intent creation
answers a status at or above 400, `_process_booking` returns 400 with
code PAYMENT_INTENT_FAILED and the downstream message passed through, and
its trace consists of exactly the booking call and the create-intent
call: it issues no compensating cancel, so the seat decrement and the
Booking persisted in step 1 are left untouched. -/
theorem c6_saga_non_rollback (data : OrchData) (userId : Option String)
    (bookRes : BookResp) (payRes : PayResp) (bid : String)
    (hbook : bookRes.status_code < 400)
    (hbid : truthyId ((bookRes.bookingField.getD bookRes.topLevel).booking_id)
        = some bid)
    (hpay : 400 ≤ payRes.status_code) :
    (processBooking data userId bookRes payRes).2
        = .err 400 "PAYMENT_INTENT_FAILED" payRes.text ∧
    (processBooking data userId bookRes payRes).1
        = [OrchCall.book data.event_id data.num_tickets userId (seatsIncluded data.seats),
           OrchCall.createIntent bid data.amount data.currency] ∧
    (∀ b, OrchCall.cancelBooking b ∉ (processBooking data userId bookRes payRes).1) ∧
    ((processBooking data userId bookRes payRes).1.filter touchesBookingStore)
        = [OrchCall.book data.event_id data.num_tickets userId (seatsIncluded data.seats)] := by
  have h1 : ¬ 400 ≤ bookRes.status_code := by omega
  simp [processBooking, if_neg h1, hbid, if_pos hpay, touchesBookingStore]

namespace Coordinator

/-- Concrete orchestration request for the C6 witness. -/
def demoOrch : OrchData :=
  { event_id := "e1", num_tickets := 2, amount := 120, currency := "sgd",
    seats := some ["A1", "A2"] }

/-- Concrete successful booking response for the C6 witness. -/
def demoBookResp : BookResp :=
  { status_code := 201, text := "created",
    bookingField := some { booking_id := some "bk-1" },
    topLevel := { booking_id := none } }

/-- Concrete failed payment response for the C6 witness. -/
def demoPayResp : PayResp :=
  { status_code := 500, text := "stripe down",
    payment_id := none, paymentId := none, client_secret := none,
    clientSecret := none, amount := none, currency := none }

end Coordinator

open Coordinator in
/-- Witness for C6: booking succeeds, payment intent fails with 500. -/
theorem c6_saga_non_rollback_witness :
    demoBookResp.status_code < 400 ∧
    truthyId ((demoBookResp.bookingField.getD demoBookResp.topLevel).booking_id)
        = some "bk-1" ∧
    400 ≤ demoPayResp.status_code ∧
    ((processBooking demoOrch (some "alice") demoBookResp demoPayResp).2
        = .err 400 "PAYMENT_INTENT_FAILED" demoPayResp.text ∧
     (∀ b, OrchCall.cancelBooking b
        ∉ (processBooking demoOrch (some "alice") demoBookResp demoPayResp).1)) :=
  ⟨by norm_num [demoBookResp], rfl, by norm_num [demoPayResp],
   (c6_saga_non_rollback demoOrch (some "alice") demoBookResp demoPayResp "bk-1"
      (by norm_num [demoBookResp]) rfl (by norm_num [demoPayResp])).1,
   (c6_saga_non_rollback demoOrch (some "alice") demoBookResp demoPayResp "bk-1"
      (by norm_num [demoBookResp]) rfl (by norm_num [demoPayResp])).2.2.1⟩

namespace Coordinator

/-- Python `str.lower()` as used on the `service` field. -/
def toLowerStr (s : String) : String := ⟨s.data.map Char.toLower⟩

/-- Python `str.upper()` as used on the `method` field. -/
def toUpperStr (s : String) : String := ⟨s.data.map Char.toUpper⟩

/-- Python `str.strip()` as used on the `service` field. -/
def stripStr (s : String) : String :=
  ⟨((s.data.dropWhile Char.isWhitespace).reverse.dropWhile Char.isWhitespace).reverse⟩

/-- Python `str.startswith(p)`. -/
def strStartsWith (s p : String) : Bool := p.data.isPrefixOf s.data

/-- Python `",".join(roles)`. -/
def joinComma : List String → String
  | [] => ""
  | [x] => x
  | x :: xs => x ++ "," ++ joinComma xs

/-- Verified JWT claims as the proxy reads them: `sub`, the
`cognito:groups` list and the `role` claim (a non-list `cognito:groups`
value behaves like an absent one for the admin check and like the empty
list for the roles header, which the optional-list field captures). -/
structure Claims where
  sub : Option String
  groups : Option (List String)
  role : Option String
deriving Repr, DecidableEq

/-- The configured verifier: `verify_authorization_header` maps the
incoming Authorization header to claims or an error message. -/
def Verifier : Type := Option String → Except String Claims

/-- JSON `data` member of a proxy request: a JSON object (dict) or any
other JSON value. -/
inductive ProxyData where
  | obj (fields : List (String × String))
  | other (raw : String)
deriving Repr, DecidableEq

/-- Body of a request to the generic `/api/orchestrator` endpoint. -/
structure ProxyPayload where
  service : Option String
  endpoint : Option String
  method : Option String
  data : Option ProxyData
deriving Repr, DecidableEq

/-- Outcome of the generic proxy endpoint `proxy_to_service`. -/
inductive ProxyOutcome where
  | unauthorized (message : String)
  | forbidden
  | missingFields
  | unknownService (service : String)
  | forwarded (service : String) (target : String) (method : String)
      (headers : List (String × String))
      (params : Option ProxyData) (jsonBody : Option ProxyData)
deriving Repr, DecidableEq

/-- HTTP status of each proxy outcome before the downstream call
(`forwarded` passes the downstream status through, hence `none`). -/
def ProxyOutcome.statusCode : ProxyOutcome → Option Nat
  | .unauthorized _ => some 401
  | .forbidden => some 403
  | .missingFields => some 400
  | .unknownService _ => some 400
  | .forwarded _ _ _ _ _ _ => none

/-- Service base URLs from the coordinator's `config.py` defaults. -/
def ADMIN_SERVICE_URL : String := "http://admin.tickets.local:8081"

/-- Booking service base URL from `config.py`. -/
def BOOKING_SERVICE_URL : String := "http://ticket-booking-service.tickets.local:8084"

/-- Payment service base URL from `config.py`. -/
def PAYMENT_SERVICE_URL : String := "http://payments.tickets.local:8083"

/-- Notification service base URL from `config.py`. -/
def NOTIFICATION_SERVICE_URL : String := "http://notifications.tickets.local:8082"

/-- Logical service name to base URL map of `proxy_to_service`. -/
def baseUrlMap : String → Option String
  | "admin" => some ADMIN_SERVICE_URL
  | "payment" => some PAYMENT_SERVICE_URL
  | "notifications" => some NOTIFICATION_SERVICE_URL
  | "events" => some BOOKING_SERVICE_URL
  | "bookings" => some BOOKING_SERVICE_URL
  | "booking" => some BOOKING_SERVICE_URL
  | _ => none

/-- Admin check of `proxy_to_service`: the ADMIN group among
`cognito:groups` (defaulting to the empty list) or a `role` claim equal
to ADMIN. -/
def isAdmin (c : Claims) : Bool :=
  (c.groups.getD []).contains "ADMIN" || c.role == some "ADMIN"

/-- The `_auth_headers` helper of `clients.py`: forward the incoming
Authorization header when present. -/
def authHeaders : Option String → List (String × String)
  | some a => [("Authorization", a)]
  | none => []

/-- Shallow embedding of the generic proxy endpoint `proxy_to_service` of
the coordinator's `src/app.py`.  Login and register on the admin service
skip authentication entirely; otherwise a configured verifier must accept
the Authorization header, and endpoints under `/api/admin` additionally
require the ADMIN role; then the request is forwarded with
identity headers injected for verified callers. -/
def proxyToService (verifier : Option Verifier) (authHeader : Option String)
    (payload : ProxyPayload) : ProxyOutcome :=
  let service := toLowerStr (stripStr (payload.service.getD ""))
  let endpoint := payload.endpoint.getD ""
  let method := toUpperStr (payload.method.getD "GET")
  let allowUnauth := service == "admin" &&
      (endpoint == "/api/users/login" || endpoint == "/api/users/register")
  let authStep : Except ProxyOutcome (Option Claims) :=
    if allowUnauth then .ok none
    else
      match verifier with
      | none => .ok none
      | some v =>
          match v authHeader with
          | .error e => .error (.unauthorized e)
          | .ok c =>
              if strStartsWith endpoint "/api/admin" && !isAdmin c then
                .error .forbidden
              else .ok (some c)
  match authStep with
  | .error o => o
  | .ok claims =>
      if service == "" || endpoint == "" then .missingFields
      else
        match baseUrlMap service with
        | none => .unknownService service
        | some base =>
            let endpoint2 := if strStartsWith endpoint "/" then endpoint
              else "/" ++ endpoint
            let headers :=
              if !allowUnauth && verifier.isSome then
                match claims with
                | some c =>
                    authHeaders authHeader ++
                      [("X-User-Id", c.sub.getD ""),
                       ("X-User-Roles", joinComma (c.groups.getD []))]
                | none => authHeaders authHeader
              else authHeaders authHeader
            let params := if method == "GET" then
                match payload.data with
                | some (.obj d) => some (ProxyData.obj d)
                | _ => none
              else none
            let jsonBody := if method == "GET" then none else payload.data
            .forwarded service (base ++ endpoint2) method headers params jsonBody

end Coordinator

open Coordinator in
/-- C10: proxy auth exemption.  A proxy request whose normalised service
is admin and whose endpoint is exactly the login or register path behaves
exactly as if no verifier were configured (no token verification, no
identity-header injection, no admin-role check) and can never answer 401
or 403; every other request under a configured verifier answers 401 with
the verifier's message when the token is rejected; and when the token is
accepted but the endpoint starts with /api/admin and the claims carry no
ADMIN role or group, it answers 403. -/
theorem c10_proxy_auth_exemption (v : Verifier) (authHeader : Option String)
    (payload : ProxyPayload) :
    (toLowerStr (stripStr (payload.service.getD "")) = "admin" →
     (payload.endpoint.getD "" = "/api/users/login" ∨
      payload.endpoint.getD "" = "/api/users/register") →
     proxyToService (some v) authHeader payload
        = proxyToService none authHeader payload ∧
     (∀ msg, proxyToService (some v) authHeader payload
        ≠ ProxyOutcome.unauthorized msg) ∧
     proxyToService (some v) authHeader payload ≠ ProxyOutcome.forbidden) ∧
    (¬ (toLowerStr (stripStr (payload.service.getD "")) = "admin" ∧
        (payload.endpoint.getD "" = "/api/users/login" ∨
         payload.endpoint.getD "" = "/api/users/register")) →
     (∀ e, v authHeader = .error e →
        proxyToService (some v) authHeader payload = ProxyOutcome.unauthorized e) ∧
     (∀ c, v authHeader = .ok c →
        strStartsWith (payload.endpoint.getD "") "/api/admin" = true →
        isAdmin c = false →
        proxyToService (some v) authHeader payload = ProxyOutcome.forbidden)) := by
  constructor
  · intro hs hend
    rcases hend with h | h <;>
      simp [proxyToService, hs, h, baseUrlMap]
  · intro hne
    have hau : ((toLowerStr (stripStr (payload.service.getD "")) == "admin") &&
        ((payload.endpoint.getD "" == "/api/users/login") ||
         (payload.endpoint.getD "" == "/api/users/register"))) = false := by
      rcases hb : ((toLowerStr (stripStr (payload.service.getD "")) == "admin") &&
        ((payload.endpoint.getD "" == "/api/users/login") ||
         (payload.endpoint.getD "" == "/api/users/register"))) with _ | _
      · rfl
      · exfalso
        apply hne
        simpa [Bool.and_eq_true, Bool.or_eq_true, beq_iff_eq] using hb
    constructor
    · intro e he
      simp [proxyToService, hau, he]
    · intro c hc hstart hadmin
      simp [proxyToService, hau, hc, hstart, hadmin]

namespace Coordinator

/-- Verifier that rejects every token, for the C10 witness. -/
def vReject : Verifier := fun _ => .error "bad token"

/-- Non-admin claims accepted by `vUser`. -/
def userClaims : Claims := { sub := some "u1", groups := some [], role := none }

/-- Verifier that accepts every token as the plain user `u1`. -/
def vUser : Verifier := fun _ => .ok userClaims

/-- Login request through the proxy, for the C10 witness. -/
def loginPayload : ProxyPayload :=
  { service := some "admin", endpoint := some "/api/users/login",
    method := some "POST", data := none }

/-- Admin-endpoint request through the proxy, for the C10 witness. -/
def adminPayload : ProxyPayload :=
  { service := some "events", endpoint := some "/api/admin/events",
    method := some "GET", data := none }

end Coordinator

open Coordinator in
/-- Witness for C10: the login bypass, a rejected token and a non-admin
caller on an admin endpoint, all at concrete inputs. -/
theorem c10_proxy_auth_exemption_witness :
    (toLowerStr (stripStr (loginPayload.service.getD "")) = "admin" ∧
     loginPayload.endpoint.getD "" = "/api/users/login" ∧
     proxyToService (some vReject) none loginPayload
        = proxyToService none none loginPayload) ∧
    (¬ (toLowerStr (stripStr (adminPayload.service.getD "")) = "admin" ∧
        (adminPayload.endpoint.getD "" = "/api/users/login" ∨
         adminPayload.endpoint.getD "" = "/api/users/register")) ∧
     vReject none = .error "bad token" ∧
     proxyToService (some vReject) none adminPayload
        = ProxyOutcome.unauthorized "bad token" ∧
     vUser none = .ok userClaims ∧
     strStartsWith (adminPayload.endpoint.getD "") "/api/admin" = true ∧
     isAdmin userClaims = false ∧
     proxyToService (some vUser) none adminPayload = ProxyOutcome.forbidden) :=
  ⟨⟨by decide, rfl,
    ((c10_proxy_auth_exemption vReject none loginPayload).1 (by decide)
        (Or.inl rfl)).1⟩,
   ⟨by decide, rfl,
    ((c10_proxy_auth_exemption vReject none adminPayload).2 (by decide)).1
        "bad token" rfl,
    rfl, by decide, by decide,
    ((c10_proxy_auth_exemption vUser none adminPayload).2 (by decide)).2
        userClaims rfl (by decide) (by decide)⟩⟩

namespace Payment

/-- Python `int(x)` on a numeric value: truncation toward zero, here on
an exact rational. -/
def pyInt (x : Rat) : Int := if 0 ≤ x then ⌊x⌋ else -⌊-x⌋

/-- Python `round(x)` with no digits argument: round half to even, here
on an exact rational. -/
def pyRound (x : Rat) : Int :=
  let f := ⌊x⌋
  let r := x - f
  if r < 1/2 then f
  else if 1/2 < r then f + 1
  else if f % 2 = 0 then f else f + 1

/-- IEEE-754 binary64 rounding of an exact rational: round to nearest
with ties to even at the 53-bit mantissa scale `2 ^ (⌊log2 q⌋ - 52)`.
This is the value Python stores for a decimal literal and the result of
each float arithmetic operation (exponent overflow and subnormals are
outside the monetary magnitudes involved and not modelled). -/
def fl64 (q : Rat) : Rat :=
  if q = 0 then 0
  else (pyRound (q / 2 ^ (Int.log 2 |q| - 52)) : Rat) * 2 ^ (Int.log 2 |q| - 52)

/-- Minor-unit (cents) amount `create_payment_intent` sends to Stripe:
`int(float(data["amount"]) * 100)` in `payment.py`.  The JSON decimal
amount is stored as the binary64 `fl64 amount` (`float` on it is the
identity), the product with 100 is the correctly rounded binary64
multiplication `fl64 (fl64 amount * 100)`, and `int` truncates it. -/
def createIntentCents (amount : Rat) : Int := pyInt (fl64 (fl64 amount * 100))

/-- Minor-unit amount `process_refund` sends to Stripe for a partial
refund: `int(round(float(data["amount"]) * 100))` in `payment.py`, the
half-to-even rounding of the same binary64 product. -/
def refundCents (amount : Rat) : Int := pyRound (fl64 (fl64 amount * 100))

/-- Base-2 integer logarithm pinned down by a bracketing pair of powers. -/
lemma log2_eq (q : Rat) (n : Int) (h0 : 0 < q) (h1 : (2:Rat)^n ≤ q)
    (h2 : q < 2^(n+1)) : Int.log 2 q = n := by
  have ha : n ≤ Int.log 2 q := by
    refine (Int.zpow_le_iff_le_log (by norm_num) h0).1 ?_
    exact_mod_cast h1
  have hb : Int.log 2 q < n + 1 := by
    refine (Int.lt_zpow_iff_log_lt (by norm_num) h0).1 ?_
    exact_mod_cast h2
  omega

/-- Evaluation rule for `fl64` on a positive rational whose binade is
known: rounding happens at scale `2 ^ (n - 52)`. -/
lemma fl64_eq_at (q : Rat) (n : Int) (h0 : 0 < q) (h1 : (2:Rat)^n ≤ q)
    (h2 : q < 2^(n+1)) :
    fl64 q = (pyRound (q / 2 ^ (n - 52)) : Rat) * 2 ^ (n - 52) := by
  have hq : q ≠ 0 := ne_of_gt h0
  have habs : |q| = q := abs_of_pos h0
  unfold fl64
  rw [if_neg hq, habs, log2_eq q n h0 h1 h2]

/-- The binary64 value of the decimal 0.29 (Python
`Fraction(0.29) == Fraction(5224175567749775, 2**54)`): it lies in the
binade `[2^-2, 2^-1)` and rounds at scale `2^-54`, just below 29/100. -/
lemma fl64_val_29 : fl64 (29/100 : Rat) = 5224175567749775 / 2 ^ 54 := by
  rw [fl64_eq_at (29/100) (-2) (by norm_num) (by norm_num) (by norm_num)]
  norm_num [pyRound]

/-- The binary64 product `float(0.29) * 100` (Python
`Fraction(0.29 * 100) == Fraction(8162774324609023, 2**48)`), equal to
`29 - 2^-48`: strictly below 29. -/
lemma fl64_val_prod :
    fl64 (fl64 (29/100 : Rat) * 100) = 8162774324609023 / 2 ^ 48 := by
  rw [fl64_val_29]
  have harg : (5224175567749775 / 2 ^ 54 : Rat) * 100
      = 130604389193744375 / 2 ^ 52 := by norm_num
  rw [harg, fl64_eq_at _ 4 (by norm_num) (by norm_num) (by norm_num)]
  norm_num [pyRound]

/-- The fractional part of the binary64 product for amount 0.29 is
`1 - 2^-48`, above one half, so truncation and rounding part ways. -/
lemma fract_prod_29 : 1/2 < Int.fract (fl64 (fl64 (29/100 : Rat) * 100)) := by
  rw [fl64_val_prod]
  norm_num [Int.fract]

/-- Rounding half to even never falls below the floor. -/
lemma pyRound_ge_floor (x : Rat) : ⌊x⌋ ≤ pyRound x := by
  simp only [pyRound]
  split_ifs <;> omega

/-- Rounding half to even preserves non-negativity. -/
lemma pyRound_nonneg (x : Rat) (hx : 0 ≤ x) : 0 ≤ pyRound x :=
  le_trans (Int.floor_nonneg.2 hx) (pyRound_ge_floor x)

/-- Binary64 rounding preserves non-negativity. -/
lemma fl64_nonneg (q : Rat) (hq : 0 ≤ q) : 0 ≤ fl64 q := by
  unfold fl64
  split
  · exact le_refl 0
  · apply mul_nonneg
    · exact_mod_cast pyRound_nonneg _ (div_nonneg hq (by positivity))
    · positivity

end Payment

open Payment in
/-- Counterexample for C7: at the two-decimal amount 0.29 the binary64
product `float(0.29) * 100` is `29 - 2^-48`, so create-intent sends
`int` of it, 28 cents, while `round(amount*100)` is 29 — under the exact
reading (the product is exactly 29) and equally under the float reading
(the refund path's `round` of the same product gives 29).  The
conversion truncates instead of rounding to the nearest integer. -/
theorem c7_minor_unit_counterexample :
    createIntentCents (29/100) = 28 ∧
    pyRound ((29/100 : Rat) * 100) = 29 ∧
    refundCents (29/100) = 29 ∧
    createIntentCents (29/100) ≠ pyRound ((29/100 : Rat) * 100) := by
  have h1 : createIntentCents (29/100) = 28 := by
    unfold createIntentCents
    rw [fl64_val_prod]
    norm_num [pyInt]
  have h2 : pyRound ((29/100 : Rat) * 100) = 29 := by norm_num [pyRound]
  have h3 : refundCents (29/100) = 29 := by
    unfold refundCents
    rw [fl64_val_prod]
    norm_num [pyRound]
  exact ⟨h1, h2, h3, by rw [h1, h2]; omega⟩

open Payment in
/-- C7 (amended): minor-unit conversion.  For every non-negative decimal
amount, create-intent sends the truncation of the binary64 product
`float(amount) * 100` — its floor — not its rounding: the sent value
never exceeds `round` applied to the same product (the conversion the
refund path uses), agrees with it when the product's fractional part is
below one half, and falls strictly short of it whenever that fractional
part exceeds one half — which already happens at two-decimal amounts
such as 0.29, where the product is `29 - 2^-48` and 28 is sent. -/
theorem c7_minor_unit_truncation (q : Rat) (hq : 0 ≤ q) :
    createIntentCents q = ⌊fl64 (fl64 q * 100)⌋ ∧
    createIntentCents q ≤ refundCents q ∧
    (Int.fract (fl64 (fl64 q * 100)) < 1/2 →
        createIntentCents q = refundCents q) ∧
    (1/2 < Int.fract (fl64 (fl64 q * 100)) →
        createIntentCents q < refundCents q) := by
  have hx : 0 ≤ fl64 (fl64 q * 100) :=
    fl64_nonneg _ (mul_nonneg (fl64_nonneg _ hq) (by norm_num))
  have hfloor : createIntentCents q = ⌊fl64 (fl64 q * 100)⌋ := by
    unfold createIntentCents pyInt
    rw [if_pos hx]
  refine ⟨hfloor, ?_, ?_, ?_⟩
  · rw [hfloor]
    exact pyRound_ge_floor _
  · intro h
    rw [hfloor]
    unfold refundCents
    simp only [pyRound]
    rw [Int.self_sub_floor, if_pos h]
  · intro h
    rw [hfloor]
    unfold refundCents
    simp only [pyRound]
    rw [Int.self_sub_floor, if_neg (not_lt.mpr (le_of_lt h)), if_pos h]
    omega

open Payment in
/-- Witness for C7 (amended): at amount 0.29 the product's fractional
part exceeds one half and the sent 28 cents fall strictly below the
refund path's rounded 29. -/
theorem c7_minor_unit_truncation_witness :
    (0 : Rat) ≤ 29/100 ∧
    1/2 < Int.fract (fl64 (fl64 (29/100 : Rat) * 100)) ∧
    createIntentCents (29/100) = ⌊fl64 (fl64 (29/100 : Rat) * 100)⌋ ∧
    createIntentCents (29/100) < refundCents (29/100) :=
  ⟨by norm_num, fract_prod_29,
   (c7_minor_unit_truncation (29/100) (by norm_num)).1,
   (c7_minor_unit_truncation (29/100) (by norm_num)).2.2.2 fract_prod_29⟩

namespace Payment

/-- An item of the `payments` DynamoDB table exactly as
`create_payment_intent` and `verify_payment_intent` write it
(`payment.py`): attributes `payment_id`, `booking_id`, `amount`,
`currency`, `status`, `created_at`. -/
structure PaymentItem where
  payment_id : String
  booking_id : String
  amount : Rat
  currency : String
  status : String
  created_at : String
deriving Repr, DecidableEq

/-- Python `item.get(name)` for the string attributes of a stored
payment item; any attribute the service never writes (such as
`payment_intent_id`, which `get_payment_intent_id` reads) is absent. -/
def getAttr (item : PaymentItem) : String → Option String
  | "payment_id" => some item.payment_id
  | "booking_id" => some item.booking_id
  | "currency" => some item.currency
  | "status" => some item.status
  | "created_at" => some item.created_at
  | _ => none

/-- DynamoDB `query` with `KeyConditionExpression Key(attr).eq(value)`
against the `payments` table, whose hash key is `payment_id` (the schema
the repository's own test fixture `tests/conftest.py` creates): a key
condition on any other attribute raises a ValidationException. -/
def queryByKey (table : List PaymentItem) (attr : String) (value : String) :
    Except String (List PaymentItem) :=
  if attr = "payment_id" then
    .ok (table.filter (fun item => item.payment_id == value))
  else .error "Query condition missed key schema element: payment_id"

/-- DynamoDB `delete_item` with `Key={attr: value}` against the
`payments` table keyed by `payment_id`: a key attribute other than the
hash key raises a ValidationException. -/
def deleteByKey (table : List PaymentItem) (attr : String) (value : String) :
    Except String (List PaymentItem) :=
  if attr = "payment_id" then
    .ok (table.filter (fun item => !(item.payment_id == value)))
  else .error "The provided key element does not match the schema"

/-- Shallow embedding of `get_payment_intent_id` (`payment.py`): query
the payments table with a `booking_id` key condition, swallow any
exception into None, and read the `payment_intent_id` attribute of the
first returned item. -/
def get_payment_intent_id (table : List PaymentItem) (booking_id : String) :
    Option String :=
  match queryByKey table "booking_id" booking_id with
  | .error _ => none
  | .ok [] => none
  | .ok (item :: _) => getAttr item "payment_intent_id"

/-- A Stripe `Refund.create` call: target intent and optional minor-unit
amount for a partial refund. -/
structure StripeRefundCall where
  payment_intent : String
  amount : Option Int
deriving Repr, DecidableEq

/-- Fields of a Stripe refund object that `process_refund` reads. -/
structure RefundInfo where
  id : String
  status : String
  amount : Int
  currency : String
deriving Repr, DecidableEq

/-- Outcome of the refund endpoint. -/
inductive RefundOutcome where
  | unauthorized
  | notFoundIntent
  | ok (refund_id : String) (status : String) (amount : Rat) (currency : String)
  | stripeError (message : String)
  | internalError (message : String)
deriving Repr, DecidableEq

/-- HTTP status of each refund outcome (`payment.py`). -/
def RefundOutcome.statusCode : RefundOutcome → Nat
  | .unauthorized => 401
  | .notFoundIntent => 404
  | .ok _ _ _ _ => 200
  | .stripeError _ => 400
  | .internalError _ => 500

/-- Shallow embedding of `process_refund` (`payment.py`): Bearer auth
check, intent lookup via `get_payment_intent_id` (absent gives 404
before any processor call), Stripe refund with optional rounded partial
amount, then `delete_item(Key={booking_id: ...})`; a raised store
exception is caught by the blanket handler and answered 500 with the
table unchanged.  Returns the resulting table, the outcome and the
trace of processor calls issued. -/
def process_refund (auth : Option String) (booking_id : String)
    (amountField : Option Rat) (table : List PaymentItem)
    (stripeRefund : StripeRefundCall → Except String RefundInfo) :
    List PaymentItem × RefundOutcome × List StripeRefundCall :=
  match auth with
  | none => (table, .unauthorized, [])
  | some a =>
      if !(Coordinator.strStartsWith a "Bearer ") then (table, .unauthorized, [])
      else
        match get_payment_intent_id table booking_id with
        | none => (table, .notFoundIntent, [])
        | some payment_id =>
            let call : StripeRefundCall :=
              match amountField with
              | some amt => { payment_intent := payment_id,
                              amount := some (refundCents amt) }
              | none => { payment_intent := payment_id, amount := none }
            match stripeRefund call with
            | .error e => (table, .stripeError e, [call])
            | .ok refund =>
                match deleteByKey table "booking_id" booking_id with
                | .error e => (table, .internalError e, [call])
                | .ok table2 =>
                    (table2,
                     .ok refund.id refund.status ((refund.amount : Rat) / 100)
                       refund.currency,
                     [call])

/-- The payments table holding exactly the record the service's own
verify-intent test leaves behind: intent `pi_test_123` for booking
`booking_test_123`. -/
def refundDemoTable : List PaymentItem :=
  [{ payment_id := "pi_test_123", booking_id := "booking_test_123",
     amount := 50, currency := "SGD", status := "completed",
     created_at := "2025-01-01T00:00:00Z" }]

/-- Stripe stub that would grant any refund request. -/
def stripeAlwaysOk : StripeRefundCall → Except String RefundInfo :=
  fun call =>
    .ok { id := "re_1", status := "succeeded",
          amount := call.amount.getD 5000, currency := "sgd" }

end Payment

open Payment in
/-- C8 at its failing input: the payments table (keyed by `payment_id`)
holds the intent record for booking `booking_test_123`, the processor
would grant the refund, and the request is authorised, yet the endpoint
answers 404 without ever calling the processor and the record survives:
the `booking_id`-keyed query and delete cannot reach a table keyed by
`payment_id`, and the `payment_intent_id` attribute the lookup reads is
never written, so the persisted record is not found and not deleted. -/
theorem c8_refund_lookup_and_delete_never_succeed :
    (refundDemoTable.filter
        (fun item => item.booking_id == "booking_test_123")).length = 1 ∧
    (process_refund (some "Bearer tok") "booking_test_123" none
        refundDemoTable stripeAlwaysOk).2.1 = RefundOutcome.notFoundIntent ∧
    ((process_refund (some "Bearer tok") "booking_test_123" none
        refundDemoTable stripeAlwaysOk).2.1).statusCode = 404 ∧
    (process_refund (some "Bearer tok") "booking_test_123" none
        refundDemoTable stripeAlwaysOk).2.2 = [] ∧
    (process_refund (some "Bearer tok") "booking_test_123" none
        refundDemoTable stripeAlwaysOk).1 = refundDemoTable := by
  refine ⟨rfl, ?_, ?_, ?_, ?_⟩ <;>
    simp [process_refund, get_payment_intent_id, queryByKey,
      Coordinator.strStartsWith, refundDemoTable, RefundOutcome.statusCode]

namespace Worker

/-- How the body of a pulled SQS message decodes (`worker.py`,
`poll_and_process`): `json.loads` raises (undecodable), or yields a
non-object JSON value (on which the subsequent `.get` raises an
AttributeError caught by the blanket handler), or yields an object with
an optional `request_id`. -/
inductive MsgParse where
  | malformed
  | nonObject
  | jsonObject (request_id : Option String)
deriving Repr, DecidableEq

/-- Result of `process_booking` (`worker.py`), which catches all its own
exceptions: success with the combined payload, or failure with an error
text. -/
inductive ProcResult where
  | success
  | failure (error : String)
deriving Repr, DecidableEq

/-- Observable effects of handling one message: the chronological status
writes `(request_id, status)` to the status table, and whether the
message was deleted from the queue (acknowledged). -/
structure WorkerEffects where
  statusWrites : List (Option String × String)
  deleted : Bool
deriving Repr, DecidableEq

/-- Shallow embedding of the per-message handling in `poll_and_process`
(`worker.py`): an undecodable body is deleted at once with no status
write; a body that decodes to a non-object crashes before any status
write and is caught by the blanket handler, which neither writes a
status nor deletes; an object body is marked processing, then completed
and deleted on success, or failed and kept for redelivery on failure. -/
def handleMessage : MsgParse → ProcResult → WorkerEffects
  | .malformed, _ => { statusWrites := [], deleted := true }
  | .nonObject, _ => { statusWrites := [], deleted := false }
  | .jsonObject rid, .success =>
      { statusWrites := [(rid, "processing"), (rid, "completed")], deleted := true }
  | .jsonObject rid, .failure _ =>
      { statusWrites := [(rid, "processing"), (rid, "failed")], deleted := false }

/-- Claim C9 as stated, at one message: an undecodable payload is deleted
immediately; a message whose processing failed (any non-success outside
the undecodable exception) is not deleted and has status failed recorded;
a successfully processed message has status completed recorded and is
deleted. -/
def ackDisciplineClaim (parse : MsgParse) (proc : ProcResult) : Prop :=
  (parse = .malformed → (handleMessage parse proc).deleted = true) ∧
  (∀ e, parse ≠ .malformed → proc = .failure e →
      (handleMessage parse proc).deleted = false ∧
      ∃ rid, (rid, "failed") ∈ (handleMessage parse proc).statusWrites) ∧
  (parse ≠ .malformed → proc = .success →
      (handleMessage parse proc).deleted = true ∧
      ∃ rid, (rid, "completed") ∈ (handleMessage parse proc).statusWrites)

end Worker

open Worker in
/-- Counterexample for C9: a message whose body is valid JSON but not an
object (for example `null`) fails processing, is correctly left in the
queue, but no failed status is ever recorded for it, against the claim
that every failed message gets status failed. -/
theorem c9_worker_ack_counterexample :
    ¬ ackDisciplineClaim MsgParse.nonObject (ProcResult.failure "AttributeError") := by
  intro h
  obtain ⟨-, h2, -⟩ := h
  obtain ⟨-, rid, hmem⟩ := h2 "AttributeError" (by simp) rfl
  simp [handleMessage] at hmem

open Worker in
/-- C9 (amended): worker acknowledgement discipline.  The worker never
deletes a message whose processing failed; failures of an object-bodied
message record status failed and leave the message for redelivery; an
undecodable payload is deleted immediately with no status write; a
payload that is JSON but not an object is neither deleted nor given any
status write (it is retried silently); successes record status completed
and delete the message. -/
theorem c9_worker_ack_discipline (parse : MsgParse) (proc : ProcResult) :
    (∀ e, proc = .failure e → parse ≠ .malformed →
        (handleMessage parse proc).deleted = false) ∧
    (∀ rid e, parse = .jsonObject rid → proc = .failure e →
        (handleMessage parse proc).deleted = false ∧
        (rid, "failed") ∈ (handleMessage parse proc).statusWrites) ∧
    (parse = .malformed →
        (handleMessage parse proc).deleted = true ∧
        (handleMessage parse proc).statusWrites = []) ∧
    (parse = .nonObject →
        (handleMessage parse proc).deleted = false ∧
        (handleMessage parse proc).statusWrites = []) ∧
    (∀ rid, parse = .jsonObject rid → proc = .success →
        (handleMessage parse proc).deleted = true ∧
        (rid, "completed") ∈ (handleMessage parse proc).statusWrites) := by
  cases parse <;> cases proc <;> simp [handleMessage]

open Worker in
/-- Witness for C9 (amended): a failed and a successful object-bodied
message, at concrete inputs. -/
theorem c9_worker_ack_discipline_witness :
    ((handleMessage (MsgParse.jsonObject (some "r1"))
        (ProcResult.failure "boom")).deleted = false ∧
     (some "r1", "failed") ∈ (handleMessage (MsgParse.jsonObject (some "r1"))
        (ProcResult.failure "boom")).statusWrites) ∧
    ((handleMessage (MsgParse.jsonObject (some "r2"))
        ProcResult.success).deleted = true ∧
     (some "r2", "completed") ∈ (handleMessage (MsgParse.jsonObject (some "r2"))
        ProcResult.success).statusWrites) :=
  ⟨(c9_worker_ack_discipline (MsgParse.jsonObject (some "r1"))
      (ProcResult.failure "boom")).2.1 (some "r1") "boom" rfl rfl,
   (c9_worker_ack_discipline (MsgParse.jsonObject (some "r2"))
      ProcResult.success).2.2.2.2 (some "r2") rfl rfl⟩
